import Mathlib

/-!
Verification of the datastore transaction coordinator and entity codec of
this repository (src/lib/datastore/index.js).

The coordinator (`Transaction` and its prototype methods) is embedded
shallowly: each method is split into the request(s) it issues and the
response handler, modelled as a pure function of the transport outcome
`(err, body)` handed to `conn.req`'s callback.  Parsed JSON bodies, keys
and entity objects are kept abstract (type variables), exactly as the
JS code treats them opaquely; calls into the entity codec module
(`entity.keyToKeyProto` etc.), whose source file is not part of the
sources given here, are recorded symbolically (argument and key,
unevaluated).  The entity codec itself is modelled from the spec in the
`entity` namespace further below.
-/

namespace DS

/-- A parsed JSON response body as seen by `makeReq`'s wrapper: it may carry
a (truthy) `error` field alongside the rest of its payload `data`. -/
structure Body (ε α : Type) where
  error : Option ε
  data : α
deriving Repr, DecidableEq

/-- The JS value the coordinator passes as the first argument of
`entity.keyToKeyProto`.  `undefinedV` arises in `getAll`/`delAll`, where
`this` inside the `forEach` callback is the global object, so `this.id`
is `undefined`; `nullV` and `idVal` arise in `putAll`, where `this.id` is
the transaction id (`null` until `begin` succeeds); `strVal` is a plain
string, the shape a dataset id would have. -/
inductive EncArg (ε β : Type) where
  | undefinedV
  | nullV
  | idVal (b : Body ε β)
  | strVal (s : String)
deriving Repr, DecidableEq

/-- Symbolic record of a call `entity.keyToKeyProto(datasetArg, key)` as it
appears inside a request body (the codec lives in a module whose source is
not among the given files, so the call is kept unevaluated). -/
structure KeyProtoS (ε β κ : Type) where
  datasetArg : EncArg ε β
  key : κ
deriving Repr, DecidableEq

/-- Symbolic encoded entity as built by `putAll`'s loop:
`e = entityToEntityProto(objs[i]); e.key = keyToKeyProto(this.id, keys[i])`. -/
structure EntityProtoS (ε β κ ω : Type) where
  obj : ω
  key : KeyProtoS ε β κ
deriving Repr, DecidableEq

/-- The JSON request bodies the coordinator sends: `null` for
`beginTransaction`, an object with a single `transaction` property for
`commit`/`rollback`, an object with a `keys` array for `lookup`, and a
mode-plus-mutation object for mutating commits.  The three mutation
buckets are `Option`s because `putAll` builds only `update` and
`insertAutoId` while `delAll` builds only `delete`. -/
inductive ReqJson (ε β κ ω : Type) where
  | nullJson
  | transactionJson (tid : Option (Body ε β))
  | lookupJson (keys : List (KeyProtoS ε β κ))
  | commitJson (mode : String) (update insertAutoId : Option (List (EntityProtoS ε β κ ω)))
      (del : Option (List (KeyProtoS ε β κ)))
deriving Repr, DecidableEq

/-- The argument object `makeReq` hands to `conn.req`. -/
structure Request (ε β κ ω : Type) where
  method : String
  uri : String
  json : ReqJson ε β κ ω
deriving Repr, DecidableEq

def DATASTORE_BASE_URL : String :=
  "https://www.googleapis.com/datastore/v1beta2/datasets"

def MODE_NON_TRANSACTIONAL : String := "NON_TRANSACTIONAL"

def MODE_TRANSACTIONAL : String := "TRANSACTIONAL"

/-- The mutable state of a `Transaction(conn, datasetId)`.  The constructor
sets `this.id = null` and `this.isFinalized = false`; note it never touches
`this.finalized`, the field that `commit`, `rollback` and `finalize`
actually use — that field starts out `undefined`, which is falsy wherever
the code reads or boolean-coerces it, so it is embedded as `false`. -/
structure Transaction (ε β : Type) where
  datasetId : String
  id : Option (Body ε β)
  finalized : Bool
  isFinalized : Bool
deriving Repr, DecidableEq

variable {ε β κ ω π α : Type}

/-- `new Transaction(conn, datasetId)` (the connection is dropped: it is an
external collaborator reached only through `makeReq`). -/
def Transaction.new (datasetId : String) : Transaction ε β :=
  { datasetId := datasetId, id := none, finalized := false, isFinalized := false }

/-- The request object `makeReq(method, req, ...)` builds:
POST to `DATASTORE_BASE_URL + '/' + this.datasetId + '/' + method`
with `req` as JSON body. -/
def Transaction.mkRequest (t : Transaction ε β) (method : String)
    (body : ReqJson ε β κ ω) : Request ε β κ ω :=
  { method := "POST",
    uri := DATASTORE_BASE_URL ++ "/" ++ t.datasetId ++ "/" ++ method,
    json := body }

/-- `makeReq`'s response wrapper: given the `(err, body)` the transport hands
back, the pair the operation callback receives — `(body.error, null)` when
the body is present and carries a truthy `error` field, `(err, body)`
otherwise. -/
def makeReqDispatch (terr : Option ε) (body : Option (Body ε α)) :
    Option ε × Option (Body ε α) :=
  match body with
  | some b =>
    match b.error with
    | some e => (some e, none)
    | none => (terr, body)
  | none => (terr, body)

/-- What a response handler did with its `callback` argument.  `typeError`
marks a runtime TypeError: either an unguarded `callback(...)` call when no
callback was supplied, or a property access on a missing response body. -/
inductive CbOut (α : Type) where
  | called (args : α)
  | notCalled
  | typeError
deriving Repr, DecidableEq

/-- The single request `begin(callback)` issues. -/
def Transaction.beginReq (t : Transaction ε β) : Request ε β κ ω :=
  t.mkRequest "beginTransaction" .nullJson

/-- `begin`'s response handler: `if (!err) that.id = resp;` then the guarded
`callback && callback(err)`.  Returns the state after the response and the
callback outcome. -/
def Transaction.beginStep (t : Transaction ε β) (cbProvided : Bool)
    (terr : Option ε) (body : Option (Body ε β)) :
    Transaction ε β × CbOut (Option ε) :=
  let p := makeReqDispatch terr body
  let t' := match p.1 with
    | none => { t with id := p.2 }
    | some _ => t
  (t', if cbProvided then .called p.1 else .notCalled)

/-- The single request `commit(callback)` issues:
a `commit` carrying `{transaction: this.id}`. -/
def Transaction.commitReq (t : Transaction ε β) : Request ε β κ ω :=
  t.mkRequest "commit" (.transactionJson t.id)

/-- `commit`'s response handler: `that.finalized = !!err;` then the guarded
`callback && callback(err)`. -/
def Transaction.commitStep (t : Transaction ε β) (cbProvided : Bool)
    (terr : Option ε) (body : Option (Body ε α)) :
    Transaction ε β × CbOut (Option ε) :=
  let p := makeReqDispatch terr body
  ({ t with finalized := p.1.isSome },
   if cbProvided then .called p.1 else .notCalled)

/-- The single request `rollback(callback)` issues:
a `rollback` carrying `{transaction: this.id}`. -/
def Transaction.rollbackReq (t : Transaction ε β) : Request ε β κ ω :=
  t.mkRequest "rollback" (.transactionJson t.id)

/-- `rollback`'s response handler, textually identical to `commit`'s:
`that.finalized = !!err;` then `callback && callback(err)`. -/
def Transaction.rollbackStep (t : Transaction ε β) (cbProvided : Bool)
    (terr : Option ε) (body : Option (Body ε α)) :
    Transaction ε β × CbOut (Option ε) :=
  let p := makeReqDispatch terr body
  ({ t with finalized := p.1.isSome },
   if cbProvided then .called p.1 else .notCalled)

/-- `finalize(callback)`: when `this.finalized` is falsy it returns
`this.commit(callback)` (so one commit request and commit's handler);
otherwise it issues no request and calls `callback()` — unguarded — with no
arguments.  Result: (requests issued, state after any response, callback
outcome). -/
def Transaction.finalizeStep (t : Transaction ε β) (cbProvided : Bool)
    (terr : Option ε) (body : Option (Body ε α)) :
    List (Request ε β κ ω) × Transaction ε β × CbOut (Option ε) :=
  if t.finalized then
    ([], t, if cbProvided then .called none else .typeError)
  else
    let r := t.commitStep cbProvided terr body
    ([t.commitReq], r.1, r.2)

/-- The parsed body of a `lookup` response: the handler reads `resp.found`,
an array of found items.  A found item (`f`, carrying `f.entity`) is kept
abstract as `π`. -/
structure LookupData (π : Type) where
  found : List π
deriving Repr, DecidableEq

/-- Symbolic record of `entity.keyFromKeyProto(f.entity.key)` for a found
item `f` (codec source not among the given files). -/
inductive DecKey (π : Type) where
  | fromFound (f : π)
deriving Repr, DecidableEq

/-- Symbolic record of `entity.entityFromEntityProto(f.entity)` for a found
item `f`. -/
inductive DecEnt (π : Type) where
  | fromFound (f : π)
deriving Repr, DecidableEq

/-- The arguments `getAll`'s handler passes to its callback: `callback(err)`
on the error path, `callback(null, keys, results)` on success. -/
inductive GetAllArgs (ε π : Type) where
  | errOnly (e : ε)
  | results (keys : List (DecKey π)) (objs : List (DecEnt π))
deriving Repr, DecidableEq

/-- The single request `getAll(keys, callback)` issues: a `lookup` whose
`keys` array holds `entity.keyToKeyProto(this.id, k)` for each key — and
inside the `forEach` callback `this` is the global object, so the first
argument is `undefined`. -/
def Transaction.getAllReq (t : Transaction ε β) (keys : List κ) :
    Request ε β κ ω :=
  t.mkRequest "lookup" (.lookupJson (keys.map fun k => ⟨.undefinedV, k⟩))

/-- `getAll`'s response handler.  On a truthy error: `return callback(err)`
— unguarded, a TypeError when no callback was supplied.  Otherwise it maps
`resp.found` through the codec's decoders and runs the guarded
`callback && callback(null, keys, results)`; accessing `resp.found` with no
body present is itself a TypeError. -/
def Transaction.getAllStep (_t : Transaction ε β) (cbProvided : Bool)
    (terr : Option ε) (body : Option (Body ε (LookupData π))) :
    CbOut (GetAllArgs ε π) :=
  let p := makeReqDispatch terr body
  match p.1 with
  | some e => if cbProvided then .called (.errOnly e) else .typeError
  | none =>
    match p.2 with
    | none => .typeError
    | some b =>
      if cbProvided then
        .called (.results (b.data.found.map .fromFound)
          (b.data.found.map .fromFound))
      else .notCalled

/-- JS `throw new Error(msg)` surfaced synchronously to the caller. -/
inductive JsError where
  | error (msg : String)
deriving Repr, DecidableEq

/-- `this.id` as read by `putAll`'s for-loop, where `this` is the
transaction itself. -/
def Transaction.thisId (t : Transaction ε β) : EncArg ε β :=
  match t.id with
  | none => .nullV
  | some b => .idVal b

/-- The two mutation buckets `putAll`'s loop builds from the paired keys and
objects: entities whose key `entity.isKeyComplete` accepts go to `update`,
the rest to `insertAutoId`, each bucket in input order.  `isComplete`
stands for the imported `entity.isKeyComplete`, kept as a parameter because
the codec source is not among the given files. -/
def putAllBuckets (tid : EncArg ε β) (isComplete : κ → Bool) :
    List (κ × ω) →
      List (EntityProtoS ε β κ ω) × List (EntityProtoS ε β κ ω)
  | [] => ([], [])
  | (k, o) :: rest =>
    let p := putAllBuckets tid isComplete rest
    if isComplete k then (⟨o, ⟨tid, k⟩⟩ :: p.1, p.2)
    else (p.1, ⟨o, ⟨tid, k⟩⟩ :: p.2)

/-- `putAll(keys, objs, callback)`: throws synchronously when the lengths
differ (so no request is issued); otherwise issues exactly one `commit`
request with mode `NON_TRANSACTIONAL` and the two buckets, and its handler
runs the unguarded `callback(err, resp)` — passing the dispatched error and
the raw response through.  (The thrown message embeds the source's text
with its apostrophe dropped.) -/
def Transaction.putAll (t : Transaction ε β) (isComplete : κ → Bool)
    (keys : List κ) (objs : List ω) (cbProvided : Bool)
    (terr : Option ε) (body : Option (Body ε α)) :
    Except JsError
      (List (Request ε β κ ω) × CbOut (Option ε × Option (Body ε α))) :=
  if keys.length ≠ objs.length then
    .error (.error "The length of the keys dont match the length of the objects")
  else
    let bk := putAllBuckets t.thisId isComplete (keys.zip objs)
    let req := t.mkRequest "commit"
      (.commitJson MODE_NON_TRANSACTIONAL (some bk.1) (some bk.2) none)
    .ok ([req],
      if cbProvided then .called (makeReqDispatch terr body) else .typeError)

/-- The requests `delAll(keys, callback)` issues: exactly one `commit`
carrying `{mode: NON_TRANSACTIONAL, mutation: {delete: keysProto}}`, where
each element of `keysProto` is `entity.keyToKeyProto(this.id, k)` with
`this` the global object inside the `forEach` callback (so the first
argument is `undefined`). -/
def Transaction.delAllRequests (t : Transaction ε β) (keys : List κ) :
    List (Request ε β κ ω) :=
  [t.mkRequest "commit"
    (.commitJson MODE_NON_TRANSACTIONAL none none
      (some (keys.map fun k => ⟨.undefinedV, k⟩)))]

/-- `delAll`'s response handler: the guarded `callback && callback(err)` —
the callback receives the error argument only. -/
def Transaction.delAllStep (_t : Transaction ε β) (cbProvided : Bool)
    (terr : Option ε) (body : Option (Body ε α)) : CbOut (Option ε) :=
  let p := makeReqDispatch terr body
  if cbProvided then .called p.1 else .notCalled

end DS

namespace entity

/-!
The entity codec module (`entity.js`) is required by the coordinator but
its source file is not among the given sources, so the codec is modelled
from the spec here (section 3 "Proto (wire shape)", section 4.1 "Entity
Codec" and section 6 of the design document).
-/

/-- Modelled from the spec: a key path segment's identifier — "either a
numeric id, a string name, or absent (incomplete segment awaiting
server-assigned id)". -/
inductive Ident where
  | id (n : Int)
  | name (s : String)
  | absent
deriving Repr, DecidableEq

/-- Modelled from the spec: a path segment, a (kind, identifier) pair. -/
structure Segment where
  kind : String
  ident : Ident
deriving Repr, DecidableEq

/-- Modelled from the spec: a Key, "an ordered sequence of path segments";
the dataset id is not stored on the Key itself. -/
structure Key where
  path : List Segment
deriving Repr, DecidableEq

def Ident.isPresent : Ident → Bool
  | .absent => false
  | _ => true

/-- Modelled from the spec: `isKeyComplete(key)` is "true iff no segment's
identifier is absent". -/
def isKeyComplete (k : Key) : Bool :=
  k.path.all fun s => s.ident.isPresent

/-- Modelled from the spec: one KeyProto path element, carrying kind and
"id XOR name XOR neither, for the final incomplete segment". -/
structure PathElement where
  kind : String
  id : Option Int
  name : Option String
deriving Repr, DecidableEq

/-- Modelled from the spec: the KeyProto wire shape, a `path[]` of
elements. -/
structure KeyProto where
  path : List PathElement
deriving Repr, DecidableEq

/-- Modelled from the spec: the `ValidationError` cases of
`keyToKeyProto`. -/
inductive ValidationError where
  | emptyDatasetId
  | multipleIncompleteSegments
deriving Repr, DecidableEq

def segToElement (s : Segment) : PathElement :=
  match s.ident with
  | .id n => { kind := s.kind, id := some n, name := none }
  | .name nm => { kind := s.kind, id := none, name := some nm }
  | .absent => { kind := s.kind, id := none, name := none }

/-- Modelled from the spec: `keyToKeyProto(datasetId, key)` "fails with
ValidationError if datasetId is empty or key has more than one incomplete
segment", and otherwise "produces a proto with one path-element per key
segment". -/
def keyToKeyProto (datasetId : String) (k : Key) :
    Except ValidationError KeyProto :=
  if datasetId = "" then .error .emptyDatasetId
  else if 1 < k.path.countP (fun s => !s.ident.isPresent) then
    .error .multipleIncompleteSegments
  else .ok ⟨k.path.map segToElement⟩

def elementToSeg (e : PathElement) : Segment :=
  match e.id with
  | some n => { kind := e.kind, ident := .id n }
  | none =>
    match e.name with
    | some nm => { kind := e.kind, ident := .name nm }
    | none => { kind := e.kind, ident := .absent }

/-- Modelled from the spec: `keyFromKeyProto(proto)`, the "inverse; always
succeeds for well-formed protos". -/
def keyFromKeyProto (p : KeyProto) : Key :=
  ⟨p.path.map elementToSeg⟩

mutual
/-- Modelled from the spec: a local property value of one of the supported
types — string, number (JS has a single number type, modelled as a
rational), boolean, nested entity, or list thereof. -/
inductive Val where
  | str (s : String)
  | num (q : Rat)
  | bool (b : Bool)
  | ent (props : Props)
  | list (vs : ValList)
/-- Modelled from the spec: an Entity, "a mapping from property name to a
typed value", as an ordered list of (name, value) properties. -/
inductive Props where
  | nil
  | cons (nm : String) (v : Val) (rest : Props)
inductive ValList where
  | nil
  | cons (v : Val) (rest : ValList)
end

mutual
/-- Modelled from the spec: a wire property value — exactly one of the
typed `*Value` fields is set (arrays carry `multi: true`), or none is set
(`unset`), which decodes to undefined. -/
inductive PVal where
  | stringValue (s : String)
  | integerValue (n : Int)
  | doubleValue (q : Rat)
  | booleanValue (b : Bool)
  | entityValue (props : PProps)
  | listValue (vs : PValList)
  | unset
inductive PProps where
  | nil
  | cons (nm : String) (v : PVal) (rest : PProps)
inductive PValList where
  | nil
  | cons (v : PVal) (rest : PValList)
end

mutual
/-- Modelled from the spec: value typing "inferred from the local runtime
type (string→stringValue, integer/number→integerValue or doubleValue
depending on fractional part, boolean→booleanValue, nested
mapping→entityValue, array→list of values with multi: true)". -/
def valToProto : Val → PVal
  | .str s => .stringValue s
  | .num q => if q.den = 1 then .integerValue q.num else .doubleValue q
  | .bool b => .booleanValue b
  | .ent ps => .entityValue (propsToProto ps)
  | .list vs => .listValue (valsToProto vs)
def propsToProto : Props → PProps
  | .nil => .nil
  | .cons nm v rest => .cons nm (valToProto v) (propsToProto rest)
def valsToProto : ValList → PValList
  | .nil => .nil
  | .cons v rest => .cons (valToProto v) (valsToProto rest)
end

mutual
/-- Modelled from the spec: "inverse typed extraction; unknown/absent value
fields decode to undefined/unset". -/
def valFromProto : PVal → Option Val
  | .stringValue s => some (.str s)
  | .integerValue n => some (.num (n : Rat))
  | .doubleValue q => some (.num q)
  | .booleanValue b => some (.bool b)
  | .entityValue ps => some (.ent (propsFromProto ps))
  | .listValue vs => some (.list (valsFromProto vs))
  | .unset => none
/-- A property whose value decodes to undefined is unset in the decoded
entity. -/
def propsFromProto : PProps → Props
  | .nil => .nil
  | .cons nm pv rest =>
    match valFromProto pv with
    | some v => .cons nm v (propsFromProto rest)
    | none => propsFromProto rest
def valsFromProto : PValList → ValList
  | .nil => .nil
  | .cons pv rest =>
    match valFromProto pv with
    | some v => .cons v (valsFromProto rest)
    | none => valsFromProto rest
end

/-- Modelled from the spec: `entityToEntityProto(entity)` "maps each
property to a typed {propertyName, value} pair". -/
def entityToEntityProto : Props → PProps := propsToProto

/-- Modelled from the spec: `entityFromEntityProto(proto)`, the inverse
typed extraction. -/
def entityFromEntityProto : PProps → Props := propsFromProto

theorem elementToSeg_segToElement (s : Segment) :
    elementToSeg (segToElement s) = s := by
  cases s with
  | mk kind ident => cases ident <;> rfl

theorem countP_incomplete_eq_zero_of_complete (k : Key)
    (h : isKeyComplete k = true) :
    k.path.countP (fun s => !s.ident.isPresent) = 0 := by
  rw [List.countP_eq_zero]
  intro s hs
  have := (List.all_eq_true.mp h) s hs
  simp [this]

mutual
theorem valFromProto_valToProto :
    ∀ v : Val, valFromProto (valToProto v) = some v
  | .str s => rfl
  | .num q => by
    by_cases h : q.den = 1
    · simp only [valToProto, h, if_pos]
      simp only [valFromProto, Option.some.injEq]
      exact congrArg Val.num (Rat.coe_int_num_of_den_eq_one h)
    · simp only [valToProto, h, if_neg, not_false_iff]
      rfl
  | .bool b => rfl
  | .ent ps => by
    simp only [valToProto, valFromProto, propsFromProto_propsToProto ps]
  | .list vs => by
    simp only [valToProto, valFromProto, valsFromProto_valsToProto vs]
theorem propsFromProto_propsToProto :
    ∀ ps : Props, propsFromProto (propsToProto ps) = ps
  | .nil => rfl
  | .cons nm v rest => by
    simp only [propsToProto, propsFromProto, valFromProto_valToProto v,
      propsFromProto_propsToProto rest]
theorem valsFromProto_valsToProto :
    ∀ vs : ValList, valsFromProto (valsToProto vs) = vs
  | .nil => rfl
  | .cons v rest => by
    simp only [valsToProto, valsFromProto, valFromProto_valToProto v,
      valsFromProto_valsToProto rest]
end

end entity

variable {ε β κ ω π α : Type}

/-- Claim C1 counterexample: a fresh transaction whose commit request gets a
success response (no transport error, body without error field) ends with
finalized = false — the code runs finalized = !!err — contradicting the
claim that the finalized flag is true regardless of success or error. -/
theorem C1_counterexample :
    ((DS.Transaction.new (ε := String) (β := Unit) "s~abc").commitStep true
        none (some (⟨none, ()⟩ : DS.Body String Unit))).1.finalized ≠ true := by
  decide

/-- Claim C1 (amended): after a commit(cb) or rollback(cb) call whose single
request has received its response, the transaction's finalized flag equals
whether the response was an error (true exactly on error, false on
success), and any error is passed through unchanged as cb's first
argument. -/
theorem C1_amended_finalized_tracks_error (t : DS.Transaction ε β)
    (terr : Option ε) (body : Option (DS.Body ε α)) :
    ((t.commitStep true terr body).1.finalized
        = (DS.makeReqDispatch terr body).1.isSome)
    ∧ ((t.commitStep true terr body).2
        = .called (DS.makeReqDispatch terr body).1)
    ∧ ((t.rollbackStep true terr body).1.finalized
        = (DS.makeReqDispatch terr body).1.isSome)
    ∧ ((t.rollbackStep true terr body).2
        = .called (DS.makeReqDispatch terr body).1) :=
  ⟨rfl, rfl, rfl, rfl⟩

/-- Claim C2 counterexample: call commit on a fresh transaction and let it
succeed; since the code sets finalized = !!err, the transaction is not
finalized, so the following finalize issues a network request — contrary to
the claim that finalize after a successful commit calls back with no
network request. -/
theorem C2_counterexample :
    (DS.Transaction.finalizeStep (κ := Unit) (ω := Unit)
      ((DS.Transaction.new (ε := String) (β := Unit) "s~abc").commitStep true
        none (some (⟨none, ()⟩ : DS.Body String Unit))).1
      true none (some (⟨none, ()⟩ : DS.Body String Unit))).1 ≠ [] := by
  decide

/-- Claim C2 (amended): finalize(cb) on a transaction whose finalized flag
is set (which the code produces only after a commit or rollback that
responded with an error) invokes cb() immediately with no arguments and
issues no network request; on a transaction whose flag is unset (in
particular after a successful commit) it behaves exactly as commit(cb). -/
theorem C2_amended_finalize (t : DS.Transaction ε β) (cbP : Bool)
    (terr : Option ε) (body : Option (DS.Body ε α)) :
    (t.finalized = true →
      DS.Transaction.finalizeStep (κ := κ) (ω := ω) t cbP terr body
        = ([], t, if cbP then .called none else .typeError))
    ∧ (t.finalized = false →
      DS.Transaction.finalizeStep (κ := κ) (ω := ω) t cbP terr body
        = ([t.commitReq], (t.commitStep cbP terr body).1,
            (t.commitStep cbP terr body).2)) := by
  constructor <;> intro h <;> simp [DS.Transaction.finalizeStep, h]

/-- Witness for the amended C2 at a concrete finalized transaction. -/
theorem C2_amended_finalize_witness :
    DS.Transaction.finalizeStep (κ := Unit) (ω := Unit)
      ({ datasetId := "d", id := none, finalized := true, isFinalized := false }
        : DS.Transaction String Unit)
      true none (none : Option (DS.Body String Unit))
      = ([], { datasetId := "d", id := none, finalized := true,
               isFinalized := false }, .called none) :=
  (C2_amended_finalize _ true none none).1 rfl

/-- Claim C3, evaluated at a failing input: on a fresh coordinator with
dataset id "s~abc", getAll and delAll record undefined as the first
argument of every keyToKeyProto call (inside their forEach callbacks `this`
is the global object), and putAll records the transaction id (null here) —
never the string "s~abc", the coordinator's dataset id. -/
theorem C3_first_arg_is_transaction_id :
    ((DS.Transaction.getAllReq (ω := Unit)
        (DS.Transaction.new (ε := String) (β := Unit) "s~abc") ["k1"]).json
      = .lookupJson [⟨.undefinedV, "k1"⟩])
    ∧ (DS.Transaction.delAllRequests (ω := Unit)
        (DS.Transaction.new (ε := String) (β := Unit) "s~abc") ["k1"]
      = [(DS.Transaction.new "s~abc").mkRequest "commit"
          (.commitJson DS.MODE_NON_TRANSACTIONAL none none
            (some [⟨.undefinedV, "k1"⟩]))])
    ∧ (DS.putAllBuckets
        (DS.Transaction.new (ε := String) (β := Unit) "s~abc").thisId
        (fun _ => true) [("k1", ())]
      = ([⟨(), ⟨.nullV, "k1"⟩⟩], []))
    ∧ (DS.EncArg.undefinedV ≠ DS.EncArg.strVal (ε := String) (β := Unit) "s~abc")
    ∧ (DS.EncArg.nullV ≠ DS.EncArg.strVal (ε := String) (β := Unit) "s~abc") := by
  refine ⟨rfl, rfl, rfl, ?_, ?_⟩ <;> decide

/-- Claim C4: every mutation request sent by putAll or delAll carries mode
NON_TRANSACTIONAL, for every transaction state (t, hence t.id, is
arbitrary); delAll([k1], cb) sends exactly one commit request with body
{mode: NON_TRANSACTIONAL, mutation: {delete: [k1Proto]}} and its handler
calls cb back with the error argument only. -/
theorem C4_mutations_non_transactional (t : DS.Transaction ε β)
    (isC : κ → Bool) (keys : List κ) (objs : List ω) (k1 : κ) (cbP : Bool)
    (terr : Option ε) (body : Option (DS.Body ε α))
    (h : keys.length = objs.length) :
    (t.putAll isC keys objs cbP terr body
      = .ok ([t.mkRequest "commit"
          (.commitJson DS.MODE_NON_TRANSACTIONAL
            (some (DS.putAllBuckets t.thisId isC (keys.zip objs)).1)
            (some (DS.putAllBuckets t.thisId isC (keys.zip objs)).2) none)],
        if cbP then .called (DS.makeReqDispatch terr body) else .typeError))
    ∧ (DS.Transaction.delAllRequests (ω := ω) t [k1]
      = [t.mkRequest "commit"
          (.commitJson DS.MODE_NON_TRANSACTIONAL none none
            (some [⟨.undefinedV, k1⟩]))])
    ∧ (DS.Transaction.delAllStep t cbP terr body
      = if cbP then .called (DS.makeReqDispatch terr body).1 else .notCalled) := by
  refine ⟨?_, rfl, rfl⟩
  simp [DS.Transaction.putAll, h]

/-- Witness for C4 at a concrete transaction with an active id. -/
theorem C4_mutations_non_transactional_witness :
    (DS.Transaction.putAll
        ({ datasetId := "s~abc", id := some ⟨none, 7⟩, finalized := false,
           isFinalized := false } : DS.Transaction String Nat)
        (fun _ => true) ["k"] [()] true none
        (none : Option (DS.Body String Unit))
      = .ok ([DS.Transaction.mkRequest
          { datasetId := "s~abc", id := some ⟨none, 7⟩, finalized := false,
            isFinalized := false } "commit"
          (.commitJson DS.MODE_NON_TRANSACTIONAL
            (some (DS.putAllBuckets
              (DS.Transaction.thisId
                { datasetId := "s~abc", id := some ⟨none, 7⟩,
                  finalized := false, isFinalized := false })
              (fun _ => true) (["k"].zip [()])).1)
            (some (DS.putAllBuckets
              (DS.Transaction.thisId
                { datasetId := "s~abc", id := some ⟨none, 7⟩,
                  finalized := false, isFinalized := false })
              (fun _ => true) (["k"].zip [()])).2) none)],
        if true then .called (DS.makeReqDispatch none none) else .typeError))
    ∧ (DS.Transaction.delAllRequests (ω := Unit)
        ({ datasetId := "s~abc", id := some ⟨none, 7⟩, finalized := false,
           isFinalized := false } : DS.Transaction String Nat) ["k1"]
      = [DS.Transaction.mkRequest
          { datasetId := "s~abc", id := some ⟨none, 7⟩, finalized := false,
            isFinalized := false } "commit"
          (.commitJson DS.MODE_NON_TRANSACTIONAL none none
            (some [⟨.undefinedV, "k1"⟩]))])
    ∧ (DS.Transaction.delAllStep
        ({ datasetId := "s~abc", id := some ⟨none, 7⟩, finalized := false,
           isFinalized := false } : DS.Transaction String Nat) true none
        (none : Option (DS.Body String Unit))
      = if true then
          .called (DS.makeReqDispatch none (none : Option (DS.Body String Unit))).1
        else .notCalled) :=
  C4_mutations_non_transactional _ _ ["k"] [()] "k1" true none none rfl

/-- Claim C5: for every complete key k and non-empty dataset id d,
keyFromKeyProto(keyToKeyProto(d, k)) = k, and for every entity whose
property values all have supported types (enforced by the type of
entity.Props), entityFromEntityProto(entityToEntityProto(e)) preserves
every property name and value. -/
theorem C5_codec_round_trip (d : String) (k : entity.Key) (e : entity.Props)
    (hd : d ≠ "") (hk : entity.isKeyComplete k = true) :
    (entity.keyToKeyProto d k).map entity.keyFromKeyProto = .ok k
    ∧ entity.entityFromEntityProto (entity.entityToEntityProto e) = e := by
  refine ⟨?_, entity.propsFromProto_propsToProto e⟩
  rw [entity.keyToKeyProto, if_neg hd,
    entity.countP_incomplete_eq_zero_of_complete k hk]
  simp [Except.map, entity.keyFromKeyProto, List.map_map, Function.comp_def,
    entity.elementToSeg_segToElement]

/-- Witness for C5 at a concrete complete key and a one-property entity. -/
theorem C5_codec_round_trip_witness :
    (entity.keyToKeyProto "s~abc" ⟨[⟨"Kind", .id 1⟩]⟩).map
        entity.keyFromKeyProto = .ok ⟨[⟨"Kind", .id 1⟩]⟩
    ∧ entity.entityFromEntityProto (entity.entityToEntityProto
        (.cons "a" (.str "x") .nil)) = .cons "a" (.str "x") .nil :=
  C5_codec_round_trip "s~abc" ⟨[⟨"Kind", .id 1⟩]⟩ (.cons "a" (.str "x") .nil)
    (by decide) rfl

/-- Claim C6: whenever keys and objs have different lengths, putAll throws
synchronously (the Except error surfaces to the caller rather than through
the callback channel), and no request is issued. -/
theorem C6_putAll_length_mismatch_throws (t : DS.Transaction ε β)
    (isC : κ → Bool) (keys : List κ) (objs : List ω) (cbP : Bool)
    (terr : Option ε) (body : Option (DS.Body ε α))
    (h : keys.length ≠ objs.length) :
    t.putAll isC keys objs cbP terr body
      = .error (.error
          "The length of the keys dont match the length of the objects") := by
  simp [DS.Transaction.putAll, h]

/-- Witness for C6: one key, zero objects. -/
theorem C6_putAll_length_mismatch_throws_witness :
    DS.Transaction.putAll
        (DS.Transaction.new (ε := String) (β := Unit) "s~abc")
        (fun _ => true) ["k"] ([] : List Unit) true none
        (none : Option (DS.Body String Unit))
      = .error (.error
          "The length of the keys dont match the length of the objects") :=
  C6_putAll_length_mismatch_throws _ _ ["k"] [] true none none (by decide)

/-- The buckets putAll's loop builds are the complete-key entries (update)
and the incomplete-key entries (insertAutoId), each in input order. -/
theorem putAllBuckets_eq_filter (tid : DS.EncArg ε β) (isC : κ → Bool)
    (l : List (κ × ω)) :
    DS.putAllBuckets tid isC l
      = ((l.filter fun p => isC p.1).map fun p => ⟨p.2, ⟨tid, p.1⟩⟩,
         (l.filter fun p => !isC p.1).map fun p => ⟨p.2, ⟨tid, p.1⟩⟩) := by
  induction l with
  | nil => rfl
  | cons hd tl ih =>
    obtain ⟨k, o⟩ := hd
    by_cases hk : isC k
    · simp [DS.putAllBuckets, hk, ih, List.filter_cons]
    · simp [DS.putAllBuckets, hk, ih, List.filter_cons]

/-- Claim C7: for equal-length keys and objs, putAll places each encoded
entity with a complete key (isComplete true) into the update bucket and
each entity with an incomplete key into insertAutoId, both in input order,
issues exactly one commit request with mode NON_TRANSACTIONAL carrying both
buckets, and passes the dispatched error together with the raw (undecoded)
server response to the callback. -/
theorem C7_putAll_buckets (t : DS.Transaction ε β) (isC : κ → Bool)
    (keys : List κ) (objs : List ω) (cbP : Bool) (terr : Option ε)
    (body : Option (DS.Body ε α)) (h : keys.length = objs.length) :
    t.putAll isC keys objs cbP terr body
      = .ok ([t.mkRequest "commit"
          (.commitJson DS.MODE_NON_TRANSACTIONAL
            (some (((keys.zip objs).filter fun p => isC p.1).map
              fun p => ⟨p.2, ⟨t.thisId, p.1⟩⟩))
            (some (((keys.zip objs).filter fun p => !isC p.1).map
              fun p => ⟨p.2, ⟨t.thisId, p.1⟩⟩))
            none)],
        if cbP then .called (DS.makeReqDispatch terr body) else .typeError) := by
  simp [DS.Transaction.putAll, h, putAllBuckets_eq_filter]

/-- Witness for C7: one complete key ("a") and one incomplete key ("b"). -/
theorem C7_putAll_buckets_witness :
    DS.Transaction.putAll
        (DS.Transaction.new (ε := String) (β := Unit) "s~abc")
        (fun s => s == "a") ["a", "b"] [1, 2] true none
        (none : Option (DS.Body String Unit))
      = .ok ([(DS.Transaction.new (ε := String) (β := Unit) "s~abc").mkRequest
          "commit"
          (.commitJson DS.MODE_NON_TRANSACTIONAL
            (some (((["a", "b"].zip [1, 2]).filter fun p => p.1 == "a").map
              fun p =>
                ⟨p.2, ⟨(DS.Transaction.new (ε := String) (β := Unit)
                  "s~abc").thisId, p.1⟩⟩))
            (some (((["a", "b"].zip [1, 2]).filter fun p => !(p.1 == "a")).map
              fun p =>
                ⟨p.2, ⟨(DS.Transaction.new (ε := String) (β := Unit)
                  "s~abc").thisId, p.1⟩⟩))
            none)],
        if true then
          .called (DS.makeReqDispatch none (none : Option (DS.Body String Unit)))
        else .typeError) :=
  C7_putAll_buckets _ (fun s => s == "a") ["a", "b"] [1, 2] true none none rfl

/-- Claim C8: makeReq's response wrapper calls back with (body.error, null)
whenever the decoded body carries a (truthy) error field — even when the
transport reported no error, since terr is arbitrary here — and with
(transportErr, body) otherwise. -/
theorem C8_makeReq_service_error_precedence (terr : Option ε) :
    (∀ (e : ε) (d : α),
      DS.makeReqDispatch terr (some ⟨some e, d⟩) = (some e, none))
    ∧ (∀ d : α, DS.makeReqDispatch terr (some ⟨none, d⟩)
        = (terr, some ⟨none, d⟩))
    ∧ DS.makeReqDispatch terr (none : Option (DS.Body ε α)) = (terr, none) :=
  ⟨fun _ _ => rfl, fun _ => rfl, rfl⟩

/-- Claim C9: after a successful begin (no transport error, body present
with no error field), the transaction's id is the entire parsed response
body, and the commit and rollback requests built afterwards carry that
whole body as the transaction property; after a failed begin (transport
error, or body carrying an error field) the id stays null. -/
theorem C9_begin_stores_whole_body (t : DS.Transaction ε β)
    (b : DS.Body ε β) (cbP : Bool) (hid : t.id = none) (hb : b.error = none) :
    (((t.beginStep cbP none (some b)).1.id = some b)
      ∧ ((DS.Transaction.commitReq (κ := κ) (ω := ω)
          (t.beginStep cbP none (some b)).1).json = .transactionJson (some b))
      ∧ ((DS.Transaction.rollbackReq (κ := κ) (ω := ω)
          (t.beginStep cbP none (some b)).1).json = .transactionJson (some b)))
    ∧ (∀ e : ε, (t.beginStep cbP (some e) (some b)).1.id = none)
    ∧ (∀ (bb : DS.Body ε β) (e : ε), bb.error = some e →
        (t.beginStep cbP none (some bb)).1.id = none) := by
  refine ⟨⟨?_, ?_, ?_⟩, fun e => ?_, fun bb e hbb => ?_⟩
  · simp [DS.Transaction.beginStep, DS.makeReqDispatch, hb]
  · simp [DS.Transaction.beginStep, DS.makeReqDispatch, hb,
      DS.Transaction.commitReq, DS.Transaction.mkRequest]
  · simp [DS.Transaction.beginStep, DS.makeReqDispatch, hb,
      DS.Transaction.rollbackReq, DS.Transaction.mkRequest]
  · simp [DS.Transaction.beginStep, DS.makeReqDispatch, hb, hid]
  · simp [DS.Transaction.beginStep, DS.makeReqDispatch, hbb, hid]

/-- Witness for C9 at a fresh transaction and a concrete body. -/
theorem C9_begin_stores_whole_body_witness :
    ((((DS.Transaction.new (ε := String) (β := Nat) "d").beginStep true none
          (some ⟨none, 7⟩)).1.id = some ⟨none, 7⟩)
      ∧ ((DS.Transaction.commitReq (κ := Unit) (ω := Unit)
          ((DS.Transaction.new (ε := String) (β := Nat) "d").beginStep true
            none (some ⟨none, 7⟩)).1).json = .transactionJson (some ⟨none, 7⟩))
      ∧ ((DS.Transaction.rollbackReq (κ := Unit) (ω := Unit)
          ((DS.Transaction.new (ε := String) (β := Nat) "d").beginStep true
            none (some ⟨none, 7⟩)).1).json
          = .transactionJson (some ⟨none, 7⟩)))
    ∧ (∀ e : String,
        ((DS.Transaction.new (ε := String) (β := Nat) "d").beginStep true
          (some e) (some ⟨none, 7⟩)).1.id = none)
    ∧ (∀ (bb : DS.Body String Nat) (e : String), bb.error = some e →
        ((DS.Transaction.new (ε := String) (β := Nat) "d").beginStep true none
          (some bb)).1.id = none) :=
  C9_begin_stores_whole_body (DS.Transaction.new "d") ⟨none, 7⟩ true rfl rfl

/-- Claim C10 counterexample: getAll on an error response with no callback
supplied runs the unguarded callback(err) — a runtime TypeError — so
omitting the callback is not safe for getAll, contrary to the claim. -/
theorem C10_counterexample :
    DS.Transaction.getAllStep (π := Unit)
      (DS.Transaction.new (ε := String) (β := Unit) "d") false (some "boom")
      none = .typeError := rfl

/-- Claim C10 (amended): putAll's response handler invokes its callback
unconditionally (a runtime TypeError when none was provided), and so does
getAll's error path; begin, commit, rollback, delAll, and getAll's success
path guard the invocation, so omitting the callback is safe there. -/
theorem C10_amended_callback_guards (t : DS.Transaction ε β)
    (isC : κ → Bool) (keys : List κ) (objs : List ω)
    (terr : Option ε) (body : Option (DS.Body ε α))
    (bb : Option (DS.Body ε β)) (h : keys.length = objs.length) :
    (Except.map (fun x => x.2) (t.putAll isC keys objs false terr body)
      = .ok .typeError)
    ∧ ((t.beginStep false terr bb).2 = .notCalled)
    ∧ ((t.commitStep false terr body).2 = .notCalled)
    ∧ ((t.rollbackStep false terr body).2 = .notCalled)
    ∧ (DS.Transaction.delAllStep t false terr body = .notCalled)
    ∧ (∀ e : ε, DS.Transaction.getAllStep (π := π) t false (some e) none
        = .typeError)
    ∧ (∀ (e : ε) (d : DS.LookupData π),
        DS.Transaction.getAllStep t false terr (some ⟨some e, d⟩) = .typeError)
    ∧ (∀ d : DS.LookupData π,
        DS.Transaction.getAllStep t false none (some ⟨none, d⟩)
          = .notCalled) := by
  refine ⟨?_, rfl, rfl, rfl, rfl, fun e => rfl, fun e d => rfl, fun d => rfl⟩
  simp [DS.Transaction.putAll, h, Except.map]

/-- Witness for the amended C10 at concrete inputs. -/
theorem C10_amended_callback_guards_witness :
    (Except.map (fun x => x.2)
        (DS.Transaction.putAll
          (DS.Transaction.new (ε := String) (β := Unit) "d")
          (fun _ => true) ([] : List Unit) ([] : List Unit) false none
          (none : Option (DS.Body String Unit)))
      = .ok .typeError)
    ∧ (((DS.Transaction.new (ε := String) (β := Unit) "d").beginStep false
        none (none : Option (DS.Body String Unit))).2 = .notCalled)
    ∧ (((DS.Transaction.new (ε := String) (β := Unit) "d").commitStep false
        none (none : Option (DS.Body String Unit))).2 = .notCalled)
    ∧ (((DS.Transaction.new (ε := String) (β := Unit) "d").rollbackStep false
        none (none : Option (DS.Body String Unit))).2 = .notCalled)
    ∧ (DS.Transaction.delAllStep
        (DS.Transaction.new (ε := String) (β := Unit) "d") false none
        (none : Option (DS.Body String Unit)) = .notCalled)
    ∧ (∀ e : String,
        DS.Transaction.getAllStep (π := Unit)
          (DS.Transaction.new (ε := String) (β := Unit) "d") false (some e)
          none = .typeError)
    ∧ (∀ (e : String) (d : DS.LookupData Unit),
        DS.Transaction.getAllStep
          (DS.Transaction.new (ε := String) (β := Unit) "d") false none
          (some ⟨some e, d⟩) = .typeError)
    ∧ (∀ d : DS.LookupData Unit,
        DS.Transaction.getAllStep
          (DS.Transaction.new (ε := String) (β := Unit) "d") false none
          (some ⟨none, d⟩) = .notCalled) :=
  C10_amended_callback_guards (DS.Transaction.new "d") (fun _ => true) [] []
    none none none rfl
